import Mathlib

/-!
Shallow embedding of the OpsFlow auth-service observability core:
the APIException error type and its HTTP boundary handler
(`app/core/exception_handler.py`, `app/main.py`), the database
connect-with-retry loop (`app/config/database_conn.py`), the structured
logger setup and context filter (`logger_service/logger.py`), and the
metrics registry (`logger_service/metrics.py`).
-/

/-- JSON-like structured values as they cross the service boundary:
strings, numbers, booleans and string-keyed objects. -/
inductive JsonValue where
| str (s : String)
| nat (n : Nat)
| bool (b : Bool)
| obj (fields : List (String × JsonValue))
deriving Repr

/-- Modelled from the spec: the APIError type (`APIException` in
`core/error_handler.py`, a file absent from the sources; its shape is fixed
by the spec's data model and by every call site under `src/`): a message,
an HTTP status code and a structured details mapping. -/
structure APIException where
  message : String
  status_code : Nat
  details : List (String × JsonValue)

/-- Modelled from the spec: the `APIException` constructor requires a
message and accepts optional `status_code` / `details`, defaulting to 500
and the empty mapping. -/
def APIException.make (message : String) (status_code : Nat := 500)
    (details : List (String × JsonValue) := []) : APIException :=
  ⟨message, status_code, details⟩

/-- Log levels of the logging module. -/
inductive LogLevel where
| debug
| info
| warning
| error
| critical
deriving Repr, DecidableEq

/-- A single-quote character, used by the Python `repr` rendering below. -/
def squo : String := String.mk [Char.ofNat 39]

mutual

/-- Python `repr`-style rendering of a `JsonValue`, as interpolated into an
f-string (dicts print as \x7b'k': v\x7d, booleans as True/False). -/
def pyRepr : JsonValue → String
  | .str s => squo ++ s ++ squo
  | .nat n => Nat.repr n
  | .bool b => if b then "True" else "False"
  | .obj fs => "\x7b" ++ pyReprFields fs ++ "\x7d"

/-- Comma-separated rendering of a dict's entries. -/
def pyReprFields : List (String × JsonValue) → String
  | [] => ""
  | [p] => pyReprEntry p
  | p :: q :: rest => pyReprEntry p ++ ", " ++ pyReprFields (q :: rest)

/-- One dict entry rendered as 'key': value. -/
def pyReprEntry : String × JsonValue → String
  | (k, v) => squo ++ k ++ squo ++ ": " ++ pyRepr v

end

/-- An emitted log event: the level and the fully formatted message. -/
structure LogEvent where
  level : LogLevel
  msg : String

/-- An HTTP response produced at the boundary: transport status code and
JSON content (`JSONResponse(status_code=..., content=...)`). -/
structure HttpResponse where
  status_code : Nat
  content : JsonValue

/-- `api_exception_handler` from `app/core/exception_handler.py` (duplicated
verbatim in `app/main.py`): logs one ERROR record interpolating the error's
message, the request path and the details, then returns a `JSONResponse`
with the error's `status_code` and the body
\x7b"success": false, "message": ..., "details": ...\x7d.
Returned as (emitted log events, response). -/
def api_exception_handler (path : String) (exc : APIException) :
    List LogEvent × HttpResponse :=
  ([⟨LogLevel.error,
      "Error: " ++ exc.message ++ " | Path: " ++ path ++ " | Details: "
        ++ pyRepr (JsonValue.obj exc.details)⟩],
   ⟨exc.status_code,
    JsonValue.obj
      [("success", JsonValue.bool false),
       ("message", JsonValue.str exc.message),
       ("details", JsonValue.obj exc.details)]⟩)

/-- `MAX_RETRIES` from `app/config/database_conn.py`. -/
def MAX_RETRIES : Nat := 3

/-- `RETRY_DELAY` (seconds between attempts) from
`app/config/database_conn.py`. -/
def RETRY_DELAY : Nat := 2

/-- The module-level retry loop of `app/config/database_conn.py`:
`for attempt in range(1, MAX_RETRIES + 1)` calls the connector each
iteration; on success the loop breaks with the connection; on
`OperationalError` it sleeps and retries while `attempt < MAX_RETRIES`, and
on the final attempt raises `APIException("Database connection error",
status_code=500, details=\x7b"error": str(e)\x7d)` with `e` the last
error. `connect n` is the outcome of the n-th (1-based) attempt;
`remaining + 1` is the number of attempts left including this one. Returns
(number of connection attempts made, result). -/
def retryAux {α : Type} (connect : Nat → Except String α) :
    Nat → Nat → Nat × Except APIException α
  | _, 0 => (0, Except.error (APIException.make "Database connection error"))
  | attempt, remaining + 1 =>
    match connect attempt with
    | Except.ok c => (1, Except.ok c)
    | Except.error e =>
      if remaining = 0 then
        (1, Except.error
              ⟨"Database connection error", 500, [("error", JsonValue.str e)]⟩)
      else
        let r := retryAux connect (attempt + 1) remaining
        (r.1 + 1, r.2)

/-- `conn`: run the retry loop from attempt 1 with the `MAX_RETRIES` cap. -/
def conn {α : Type} (connect : Nat → Except String α) :
    Nat × Except APIException α :=
  retryAux connect 1 MAX_RETRIES

/-- A handler attached to a logger: the rotating file handler with its
path, per-segment byte cap and backup count, or the console stream
handler. -/
inductive Handler where
| file (path : String) (maxBytes : Nat) (backupCount : Nat)
| console
deriving Repr, DecidableEq

/-- The state of the process-wide logger named "app": its level (none
until set) and its attached handlers. -/
structure LoggerState where
  level : Option LogLevel
  handlers : List Handler
deriving Repr, DecidableEq

/-- `os.path.join` for the relative components used here. -/
def pathJoin (a b : String) : String := a ++ "/" ++ b

/-- `maxBytes=10 * 1024 * 1024` of the rotating file handler in
`setup_logger`. -/
def fileMaxBytes : Nat := 10 * 1024 * 1024

/-- `backupCount=5` of the rotating file handler in `setup_logger`. -/
def fileBackupCount : Nat := 5

/-- The log file path computed by `setup_logger`:
`os.path.join(os.path.join(os.getcwd(), "logs"), "app.log")`. -/
def log_file_path (cwd : String) : String :=
  pathJoin (pathJoin cwd "logs") "app.log"

/-- The rotating file handler `setup_logger` constructs. -/
def fileHandler (cwd : String) : Handler :=
  Handler.file (log_file_path cwd) fileMaxBytes fileBackupCount

/-- `setup_logger` from `logger_service/logger.py`: fetches the shared
logger named "app" (`st` is its current state), sets its level to INFO,
builds a fresh rotating file handler and a fresh console handler, and
appends both unconditionally — the source has no guard against handlers
already being present. -/
def setup_logger (cwd : String) (st : LoggerState) : LoggerState :=
  { level := some LogLevel.info,
    handlers := st.handlers ++ [fileHandler cwd, Handler.console] }

/-- The logger returned by `logging.getLogger("app")` before any setup:
no level set, no handlers attached. -/
def freshLogger : LoggerState := ⟨none, []⟩

/-- The shared "app" logger after `n` calls to `setup_logger`. -/
def setupN (cwd : String) : Nat → LoggerState
  | 0 => freshLogger
  | n + 1 => setup_logger cwd (setupN cwd n)

/-- Number of file handlers attached to the logger. -/
def countFileHandlers (st : LoggerState) : Nat :=
  st.handlers.countP fun h =>
    match h with
    | Handler.file _ _ _ => true
    | Handler.console => false

/-- Number of console handlers attached to the logger. -/
def countConsoleHandlers (st : LoggerState) : Nat :=
  st.handlers.countP fun h =>
    match h with
    | Handler.file _ _ _ => false
    | Handler.console => true

/-- The two context variables of `logger_service/logger.py`
(`request_id_ctx`, `client_ip_ctx`), both declared with `default=None`;
`none` models an unbound variable. -/
structure Ctx where
  request_id : Option String
  client_ip : Option String

/-- Python `x or d` for `x` an optional string: `None` and `""` are falsy
and fall through to the default. -/
def pyOr (x : Option String) (d : String) : String :=
  match x with
  | none => d
  | some s => if s = "" then d else s

/-- A log record as mutated by `ContextFilter.filter`: just the two fields
the filter sets. -/
structure PyLogRecord where
  request_id : String
  client_ip : String
deriving Repr, DecidableEq

/-- `ContextFilter.filter` from `logger_service/logger.py`:
`record.request_id = request_id_ctx.get() or str(uuid.uuid4())` and
`record.client_ip = client_ip_ctx.get() or "unknown"`. The UUID source is
modelled as an identifier stream `gen` with a cursor `g` advanced exactly
when `uuid.uuid4()` is evaluated, i.e. when the request_id context value
is falsy; a fresh draw is `gen g`. Returns the enriched record and the new
cursor. -/
def ContextFilter_filter (gen : Nat → String) (ctx : Ctx) (g : Nat)
    (record : PyLogRecord) : PyLogRecord × Nat :=
  match ctx.request_id with
  | none =>
    ({ record with request_id := gen g,
                   client_ip := pyOr ctx.client_ip "unknown" }, g + 1)
  | some s =>
    if s = "" then
      ({ record with request_id := gen g,
                     client_ip := pyOr ctx.client_ip "unknown" }, g + 1)
    else
      ({ record with request_id := s,
                     client_ip := pyOr ctx.client_ip "unknown" }, g)

/-- A concrete identifier stream for witnesses: the cursor value determines
the identifier's length, so distinct draws are distinct. -/
def demoGen (n : Nat) : String := String.mk (List.replicate n 'r')

/-- The on-disk state of a `RotatingFileHandler`: the byte size of the
current `app.log` segment and the sizes of the rotated backup segments
`app.log.1`, `app.log.2`, ... newest first. -/
structure RotatingFile where
  current : Nat
  backups : List Nat
deriving Repr, DecidableEq

/-- `RotatingFileHandler.shouldRollover`: roll when `maxBytes > 0` and
writing the record would take the current segment past `maxBytes`. -/
def shouldRollover (maxBytes : Nat) (f : RotatingFile) (recordLen : Nat) :
    Bool :=
  decide (0 < maxBytes) && decide (maxBytes < f.current + recordLen)

/-- `RotatingFileHandler.doRollover` with `backupCount` backups:
`app.log.i` becomes `app.log.(i+1)` for i = backupCount-1 down to 1, so
the oldest segment `app.log.backupCount` is dropped, `app.log` becomes
`app.log.1`, and a new empty `app.log` is opened. -/
def doRollover (backupCount : Nat) (f : RotatingFile) : RotatingFile :=
  ⟨0, (f.current :: f.backups).take backupCount⟩

/-- `RotatingFileHandler.emit` of one record of `recordLen` bytes. -/
def rotEmit (maxBytes backupCount : Nat) (f : RotatingFile)
    (recordLen : Nat) : RotatingFile :=
  if shouldRollover maxBytes f recordLen then
    let g := doRollover backupCount f
    ⟨g.current + recordLen, g.backups⟩
  else
    ⟨f.current + recordLen, f.backups⟩

/-- A sequence of record writes through the handler, from an empty file. -/
def rotRun (maxBytes backupCount : Nat) (writes : List Nat) : RotatingFile :=
  writes.foldl (rotEmit maxBytes backupCount) ⟨0, []⟩

/-- The three prometheus instrument kinds used by
`logger_service/metrics.py`. -/
inductive MetricKind where
| counter
| histogram
| gauge
deriving Repr, DecidableEq

/-- A prometheus_client instrument declaration: kind, metric name,
description, label names. -/
structure MetricDef where
  kind : MetricKind
  name : String
  description : String
  labelnames : List String
deriving Repr, DecidableEq

/-- `REQUEST_COUNT` from `logger_service/metrics.py`. -/
def REQUEST_COUNT : MetricDef :=
  ⟨MetricKind.counter, "http_requests_total", "Total HTTP requests",
   ["method", "path", "status"]⟩

/-- `REQUEST_LATENCY` from `logger_service/metrics.py`. -/
def REQUEST_LATENCY : MetricDef :=
  ⟨MetricKind.histogram, "http_request_latency_seconds", "Request latency",
   ["method", "path"]⟩

/-- `IN_PROGRESS` from `logger_service/metrics.py`. -/
def IN_PROGRESS : MetricDef :=
  ⟨MetricKind.gauge, "http_requests_in_progress",
   "In-progress HTTP requests", []⟩

/-- The instruments `logger_service/metrics.py` declares, in order. -/
def metricsInstruments : List MetricDef :=
  [REQUEST_COUNT, REQUEST_LATENCY, IN_PROGRESS]

/-- A started exposition HTTP server (`start_http_server`): its port. -/
structure MetricsServer where
  port : Nat
deriving Repr, DecidableEq

/-- `prometheus_client.start_http_server`, reduced to the binding of its
port. -/
def start_http_server (port : Nat) : MetricsServer := ⟨port⟩

/-- `start_metrics_server` from `logger_service/metrics.py`. -/
def start_metrics_server : MetricsServer := start_http_server 9090

/-! ### Theorems -/

/-- Helper: the demo identifier stream is injective (identifiers have
pairwise distinct lengths). -/
theorem demoGen_injective : Function.Injective demoGen := by
  intro a b h
  have hd := congrArg String.data h
  have hl := congrArg List.length hd
  simpa [demoGen] using hl

/-- Helper: one emit through the rotating handler keeps the number of
backup segments bounded by `backupCount`. -/
theorem rotEmit_backups_le (maxBytes backupCount : Nat) (f : RotatingFile)
    (len : Nat) (h : f.backups.length ≤ backupCount) :
    (rotEmit maxBytes backupCount f len).backups.length ≤ backupCount := by
  unfold rotEmit doRollover
  split
  · exact List.length_take_le backupCount (f.current :: f.backups)
  · exact h

/-- Helper: any write sequence from the empty file keeps the number of
backup segments bounded by `backupCount`. -/
theorem rotRun_backups_le (maxBytes backupCount : Nat) (writes : List Nat) :
    (rotRun maxBytes backupCount writes).backups.length ≤ backupCount := by
  suffices h : ∀ f : RotatingFile, f.backups.length ≤ backupCount →
      (writes.foldl (rotEmit maxBytes backupCount) f).backups.length ≤
        backupCount by
    exact h ⟨0, []⟩ (by simp)
  induction writes with
  | nil => intro f hf; simpa using hf
  | cons w ws ih =>
    intro f hf
    exact ih _ (rotEmit_backups_le _ _ _ _ hf)

/-- Helper: the file path assembled by `setup_logger` is
`<cwd>/logs/app.log`. -/
theorem log_file_path_eq (cwd : String) :
    log_file_path cwd = cwd ++ "/logs/app.log" := by
  unfold log_file_path pathJoin
  rw [String.append_assoc, String.append_assoc, String.append_assoc]
  have hlit : ("/" ++ ("logs" ++ ("/" ++ "app.log")) : String) = "/logs/app.log" := by
    decide
  rw [hlit]

/-- C1: for every APIError caught at the boundary the handler returns the
error's own `status_code` as the transport status and the exact body
\x7b"success": false, "message": message, "details": details\x7d; in
particular APIError("Database connection error", 500, \x7b"error":
"timeout"\x7d) yields status 500 and that body. -/
theorem c1_mapper_status_and_body (path : String) (exc : APIException) :
    (api_exception_handler path exc).2.status_code = exc.status_code ∧
    (api_exception_handler path exc).2.content =
      JsonValue.obj
        [("success", JsonValue.bool false),
         ("message", JsonValue.str exc.message),
         ("details", JsonValue.obj exc.details)] ∧
    (api_exception_handler "/db"
        ⟨"Database connection error", 500,
          [("error", JsonValue.str "timeout")]⟩).2.status_code = 500 ∧
    (api_exception_handler "/db"
        ⟨"Database connection error", 500,
          [("error", JsonValue.str "timeout")]⟩).2.content =
      JsonValue.obj
        [("success", JsonValue.bool false),
         ("message", JsonValue.str "Database connection error"),
         ("details", JsonValue.obj [("error", JsonValue.str "timeout")])] :=
  ⟨rfl, rfl, rfl, rfl⟩

/-- C4: an APIError constructed with only a message defaults to
status_code 500 and empty details. -/
theorem c4_apierror_defaults (m : String) :
    (APIException.make m).status_code = 500 ∧
    (APIException.make m).details = [] :=
  ⟨rfl, rfl⟩

/-- C2: with attempt cap 3, a connector failing on every attempt makes the
retry loop raise APIError with status 500, message "Database connection
error" and the final (3rd) error's text in details, after exactly 3
connection attempts; a connector failing twice and succeeding on the 3rd
attempt makes the loop return success without raising. -/
theorem c2_retry_exhaustion_and_recovery {α : Type}
    (connect : Nat → Except String α) (e : Nat → String) (c : α) :
    ((∀ n, connect n = Except.error (e n)) →
      conn connect =
        (3, Except.error
              ⟨"Database connection error", 500,
               [("error", JsonValue.str (e 3))]⟩)) ∧
    (connect 1 = Except.error (e 1) → connect 2 = Except.error (e 2) →
      connect 3 = Except.ok c → conn connect = (3, Except.ok c)) := by
  constructor
  · intro h
    simp [conn, MAX_RETRIES, retryAux, h 1, h 2, h 3]
  · intro h1 h2 h3
    simp [conn, MAX_RETRIES, retryAux, h1, h2, h3]

/-- C2 witness: a connector that always refuses exhausts all 3 attempts and
raises with the 3rd error's text; a connector refusing twice then
connecting on the 3rd attempt succeeds after 3 attempts. -/
theorem c2_retry_witness :
    conn (fun n => (Except.error ("refused " ++ Nat.repr n) :
        Except String Nat)) =
      (3, Except.error
            ⟨"Database connection error", 500,
             [("error", JsonValue.str ("refused " ++ Nat.repr 3))]⟩) ∧
    conn (fun n =>
        if n = 3 then (Except.ok 7 : Except String Nat)
        else Except.error ("refused " ++ Nat.repr n)) = (3, Except.ok 7) :=
  ⟨(c2_retry_exhaustion_and_recovery
      (fun n => Except.error ("refused " ++ Nat.repr n))
      (fun n => "refused " ++ Nat.repr n) 7).1 (fun _ => rfl),
   (c2_retry_exhaustion_and_recovery
      (fun n =>
        if n = 3 then (Except.ok 7 : Except String Nat)
        else Except.error ("refused " ++ Nat.repr n))
      (fun n => "refused " ++ Nat.repr n) 7).2 rfl rfl rfl⟩

/-- C3: evaluation at the failing input N = 2. The second call to
`setup_logger` appends a second file handler and a second console handler
to the shared "app" logger instead of reusing the existing sinks, so after
two calls the logger carries two of each — contradicting the claimed
"exactly one file handler and one console handler for every N ≥ 1". -/
theorem c3_second_call_duplicates_handlers :
    countFileHandlers (setupN "/srv/opsflow" 2) = 2 ∧
    countConsoleHandlers (setupN "/srv/opsflow" 2) = 2 ∧
    (setupN "/srv/opsflow" 2).handlers =
      [fileHandler "/srv/opsflow", Handler.console,
       fileHandler "/srv/opsflow", Handler.console] :=
  ⟨rfl, rfl, rfl⟩

/-- C5 counterexample: the claim says bound context values are used, but
with client_ip bound to the empty string the enriched record carries
"unknown" rather than the bound value (Python `or` treats "" as falsy). -/
theorem c5_bound_empty_ip_not_used :
    (some "" ≠ (none : Option String)) ∧
    (ContextFilter_filter demoGen ⟨some "req-1", some ""⟩ 0
        ⟨"", ""⟩).1.client_ip = "unknown" ∧
    "unknown" ≠ "" :=
  ⟨by decide, rfl, by decide⟩

/-- C5 (amended): records enriched by the context filter carry "unknown"
for client_ip when it is unbound and a freshly drawn identifier for
request_id when it is unbound; bound NON-EMPTY values are used as bound —
a bound empty string is treated like unset and falls back to the default,
because the filter uses Python `or` on the context values. -/
theorem c5_context_enrichment (gen : Nat → String) (ctx : Ctx) (g : Nat)
    (r : PyLogRecord) :
    (ctx.client_ip = none →
      (ContextFilter_filter gen ctx g r).1.client_ip = "unknown") ∧
    (ctx.request_id = none →
      (ContextFilter_filter gen ctx g r).1.request_id = gen g) ∧
    (∀ s, s ≠ "" → ctx.client_ip = some s →
      (ContextFilter_filter gen ctx g r).1.client_ip = s) ∧
    (∀ s, s ≠ "" → ctx.request_id = some s →
      (ContextFilter_filter gen ctx g r).1.request_id = s) := by
  obtain ⟨rid, cip⟩ := ctx
  refine ⟨?_, ?_, ?_, ?_⟩
  · rintro rfl
    cases rid with
    | none => rfl
    | some s =>
      by_cases hs : s = "" <;>
        simp [ContextFilter_filter, pyOr, hs]
  · rintro rfl
    rfl
  · rintro s hs rfl
    cases rid with
    | none => simp [ContextFilter_filter, pyOr, hs]
    | some t =>
      by_cases ht : t = "" <;>
        simp [ContextFilter_filter, pyOr, hs, ht]
  · rintro s hs rfl
    simp [ContextFilter_filter, hs]

/-- C5 witness: the amended statement evaluated at an unbound context and
at a context bound to non-empty values. -/
theorem c5_context_enrichment_witness :
    (ContextFilter_filter demoGen ⟨none, none⟩ 0 ⟨"", ""⟩).1.client_ip =
      "unknown" ∧
    (ContextFilter_filter demoGen ⟨none, none⟩ 0 ⟨"", ""⟩).1.request_id =
      demoGen 0 ∧
    (ContextFilter_filter demoGen ⟨some "req-9", some "10.0.0.9"⟩ 0
        ⟨"", ""⟩).1.client_ip = "10.0.0.9" ∧
    (ContextFilter_filter demoGen ⟨some "req-9", some "10.0.0.9"⟩ 0
        ⟨"", ""⟩).1.request_id = "req-9" :=
  ⟨(c5_context_enrichment demoGen ⟨none, none⟩ 0 ⟨"", ""⟩).1 rfl,
   (c5_context_enrichment demoGen ⟨none, none⟩ 0 ⟨"", ""⟩).2.1 rfl,
   (c5_context_enrichment demoGen ⟨some "req-9", some "10.0.0.9"⟩ 0
      ⟨"", ""⟩).2.2.1 "10.0.0.9" (by decide) rfl,
   (c5_context_enrichment demoGen ⟨some "req-9", some "10.0.0.9"⟩ 0
      ⟨"", ""⟩).2.2.2 "req-9" (by decide) rfl⟩

/-- C8: the file sink `setup_logger` builds is the rotating handler at
`<cwd>/logs/app.log` with a 10MB per-segment cap and 5 retained backups,
and under any sequence of writes the rollover discipline (newest kept,
oldest dropped) retains at most 5 prior segments. -/
theorem c8_rotation_config_and_bound (cwd : String) (writes : List Nat) :
    fileHandler cwd =
      Handler.file (cwd ++ "/logs/app.log") (10 * 1024 * 1024) 5 ∧
    (rotRun fileMaxBytes fileBackupCount writes).backups.length ≤ 5 := by
  constructor
  · unfold fileHandler
    rw [log_file_path_eq]
    rfl
  · exact rotRun_backups_le _ _ _

/-- C9: the metrics module declares exactly three instruments — a request
counter labeled (method, path, status), a latency histogram labeled
(method, path) and an unlabeled in-progress gauge — and starts the
exposition server on fixed port 9090. -/
theorem c9_metrics_registry_shape :
    metricsInstruments = [REQUEST_COUNT, REQUEST_LATENCY, IN_PROGRESS] ∧
    metricsInstruments.length = 3 ∧
    REQUEST_COUNT.kind = MetricKind.counter ∧
    REQUEST_COUNT.labelnames = ["method", "path", "status"] ∧
    REQUEST_LATENCY.kind = MetricKind.histogram ∧
    REQUEST_LATENCY.labelnames = ["method", "path"] ∧
    IN_PROGRESS.kind = MetricKind.gauge ∧
    IN_PROGRESS.labelnames = [] ∧
    start_metrics_server.port = 9090 :=
  ⟨rfl, rfl, rfl, rfl, rfl, rfl, rfl, rfl, rfl⟩

/-- C10: when no request_id is bound, the context filter draws a fresh
identifier for every individual record: two records enriched in succession
under the same unbound context carry distinct request_id values, for any
injective identifier source. -/
theorem c10_fresh_uuid_per_record (gen : Nat → String)
    (hg : Function.Injective gen) (g : Nat) (cip : Option String)
    (r1 r2 : PyLogRecord) :
    (ContextFilter_filter gen ⟨none, cip⟩ g r1).1.request_id ≠
      (ContextFilter_filter gen ⟨none, cip⟩
        (ContextFilter_filter gen ⟨none, cip⟩ g r1).2 r2).1.request_id := by
  simp only [ContextFilter_filter]
  intro h
  have := hg h
  omega

/-- C10 witness: two successive records under the unbound context and the
demo identifier stream carry distinct request_id values. -/
theorem c10_fresh_uuid_per_record_witness :
    (ContextFilter_filter demoGen ⟨none, none⟩ 0 ⟨"", ""⟩).1.request_id ≠
      (ContextFilter_filter demoGen ⟨none, none⟩
        (ContextFilter_filter demoGen ⟨none, none⟩ 0 ⟨"", ""⟩).2
        ⟨"", ""⟩).1.request_id :=
  c10_fresh_uuid_per_record demoGen demoGen_injective 0 none ⟨"", ""⟩ ⟨"", ""⟩

/-- C7: for every APIError caught at the boundary the handler emits exactly
one log record, at ERROR level, whose message interpolates the error's
message, the request's path and the error's details, and then produces the
JSON error response carrying the error's status code. -/
theorem c7_handler_logs_once_then_responds (path : String)
    (exc : APIException) :
    (api_exception_handler path exc).1 =
      [⟨LogLevel.error,
        "Error: " ++ exc.message ++ " | Path: " ++ path ++ " | Details: "
          ++ pyRepr (JsonValue.obj exc.details)⟩] ∧
    (api_exception_handler path exc).2 =
      ⟨exc.status_code,
       JsonValue.obj
         [("success", JsonValue.bool false),
          ("message", JsonValue.str exc.message),
          ("details", JsonValue.obj exc.details)]⟩ :=
  ⟨rfl, rfl⟩
